import Mathlib

/-!
Verification of the `intergrate_fall` fall-detection system.

This file gives a shallow embedding, in Lean 4, of the core logic of the
repository:

* `FallDetector` (src/fall/fall_detector.py) — the per-identity temporal
  state machine that confirms a fall from pose landmarks;
* `PersonTracker` (src/detection/person_tracker.py) — IoU-based identity
  tracking of bounding boxes;
* `DetectionProcessor` (src/processing/detection_processor.py) together with
  the persistence retry wrapper over
  `insert_fall_event` (src/database/database_manager.py) — payload
  validation, deduplication, cooldown, persistence and alert dispatch.

Modelling conventions:

* Python floats are modelled as `ℚ`; Python non-negative integer counters as
  `ℕ`.  Python lists become `List`, Python dicts become association lists
  (first binding wins on lookup, in-place overwrite on update, append on
  fresh insert — matching insertion-ordered Python dicts whose keys are
  unique).
* The transcendental library calls `math.degrees(math.atan2 ...)` and
  `math.sqrt` are kept abstract: every definition that needs them takes
  function arguments `at2 : ℚ → ℚ → ℚ` (degrees-of-atan2, same argument
  order as Python's `math.atan2(y, x)` composed with `math.degrees`) and
  `sq : ℚ → ℚ` (square root).  All theorems quantify over these
  interpretations; concrete evaluations instantiate them with functions
  that agree with the true mathematical functions on every input actually
  reached (axis-aligned torso vectors, where atan2 takes the exact values
  0, ±90 or 180 degrees, and square roots of 0).
* Asynchronous effects (database insert attempts, the AMI and Telegram
  channel sends, `datetime.now()`) are made explicit: an `Env` record
  supplies the clock and the per-attempt outcome of the database insert,
  and each handler returns, besides the updated processor state, an
  `Effects` record tracing what was persisted and what was handed to the
  notification channels.  Channel send failures never influence control
  flow in the source (`asyncio.gather(..., return_exceptions=True)` plus
  per-channel `try/except`), so the trace records the message handed to
  each channel, not a delivery outcome.
* The one exception a handler can raise to its caller — the `TypeError`
  of a dictionary lookup on an unhashable `device_id` — is part of the
  effect trace (`Effects.raised`); a raising call returns the processor
  state as mutated up to the raise point (nothing, for this exception)
  together with that marker instead of a normal result.
-/

/- The Batteries rational-number operations are `@[irreducible]`, which
blocks `decide` from evaluating concrete rational arithmetic during
elaboration; the kernel itself is unaffected by reducibility attributes.
Restore default reducibility locally so concrete runs of the embedded
program evaluate. -/
set_option allowUnsafeReducibility true

attribute [local semireducible] Rat.add Rat.sub Rat.mul Rat.div Rat.neg Rat.inv

namespace IntergrateFall

/-! ## Configuration (src/config/config.py) -/

namespace config

def TORSO_ANGLE_THRESHOLD_VERTICAL : ℚ := 60
def TORSO_ANGLE_THRESHOLD_HORIZONTAL : ℚ := 45
def VELOCITY_THRESHOLD : ℚ := 1/2
def FALL_DURATION_THRESHOLD : ℕ := 5
def FALL_STATE_DURATION_THRESHOLD : ℕ := 5
def MIN_LANDMARK_CONFIDENCE : ℚ := 1/2

end config

/-! ## Fall detector (src/fall/fall_detector.py)

A landmark is modelled as the list of its Python tuple components
`(x, y, confidence)`; `detect_fall` receives a list of landmarks.  Reads
beyond a landmark's length default to `0` (the source only reads components
whose presence it has already checked, except for the `(x, y)` coordinate
extraction, which the claims only exercise on well-formed landmarks). -/

structure FallDetector where
  TORSO_ANGLE_THRESHOLD_VERTICAL : ℚ
  TORSO_ANGLE_THRESHOLD_HORIZONTAL : ℚ
  VELOCITY_THRESHOLD : ℚ
  FALL_DURATION_THRESHOLD : ℕ
  FALL_STATE_DURATION_THRESHOLD : ℕ
  MIN_LANDMARK_CONFIDENCE : ℚ
  consecutive_frames_fallen : ℕ
  frames_in_fall_state : ℕ
  previous_torso_center : Option (ℚ × ℚ)
  deriving DecidableEq, Repr

namespace FallDetector

/-- `FallDetector()` — fresh detector with the `config` thresholds and zeroed
internal state, as built by `__init__` when no override is supplied. -/
def init : FallDetector where
  TORSO_ANGLE_THRESHOLD_VERTICAL := config.TORSO_ANGLE_THRESHOLD_VERTICAL
  TORSO_ANGLE_THRESHOLD_HORIZONTAL := config.TORSO_ANGLE_THRESHOLD_HORIZONTAL
  VELOCITY_THRESHOLD := config.VELOCITY_THRESHOLD
  FALL_DURATION_THRESHOLD := config.FALL_DURATION_THRESHOLD
  FALL_STATE_DURATION_THRESHOLD := config.FALL_STATE_DURATION_THRESHOLD
  MIN_LANDMARK_CONFIDENCE := config.MIN_LANDMARK_CONFIDENCE
  consecutive_frames_fallen := 0
  frames_in_fall_state := 0
  previous_torso_center := none

/-- Landmark indices used by the detector. -/
def LEFT_SHOULDER : ℕ := 11
def RIGHT_SHOULDER : ℕ := 12
def LEFT_HIP : ℕ := 23
def RIGHT_HIP : ℕ := 24

/-- `FallDetector.reset` — clear both counters and the previous torso
center; thresholds are untouched. -/
def reset (d : FallDetector) : FallDetector :=
  { d with consecutive_frames_fallen := 0
           frames_in_fall_state := 0
           previous_torso_center := none }

/-- The `(x, y)` pair of the landmark at index `i` of the coordinate list
(`coords[i]` in the source). -/
def coordAt (coords : List (ℚ × ℚ)) (i : ℕ) : ℚ × ℚ := coords.getD i (0, 0)

/-- `FallDetector._calculate_torso_angle` — angles (in degrees) of the torso
line (shoulder midpoint to hip midpoint) from the vertical and from the
horizontal axis, via `at2`, the model of `degrees ∘ atan2`. -/
def calculate_torso_angle (at2 : ℚ → ℚ → ℚ) (coords : List (ℚ × ℚ)) : ℚ × ℚ :=
  let left_shoulder := coordAt coords LEFT_SHOULDER
  let right_shoulder := coordAt coords RIGHT_SHOULDER
  let left_hip := coordAt coords LEFT_HIP
  let right_hip := coordAt coords RIGHT_HIP
  let torso_top := ((left_shoulder.1 + right_shoulder.1) / 2,
                    (left_shoulder.2 + right_shoulder.2) / 2)
  let torso_bottom := ((left_hip.1 + right_hip.1) / 2,
                       (left_hip.2 + right_hip.2) / 2)
  let dx := torso_top.1 - torso_bottom.1
  let dy := torso_top.2 - torso_bottom.2
  (|at2 dx dy|, |at2 dy dx|)

/-- Torso center: mean of the four torso landmarks (from
`_calculate_velocity`). -/
def torso_center (coords : List (ℚ × ℚ)) : ℚ × ℚ :=
  let ls := coordAt coords LEFT_SHOULDER
  let rs := coordAt coords RIGHT_SHOULDER
  let lh := coordAt coords LEFT_HIP
  let rh := coordAt coords RIGHT_HIP
  ((ls.1 + rs.1 + lh.1 + rh.1) / 4, (ls.2 + rs.2 + lh.2 + rh.2) / 4)

/-- `FallDetector._calculate_velocity` — Euclidean displacement of the torso
center since the previous frame (`0` on the first frame after a reset);
also records the current center, mirroring the in-place update of
`self.previous_torso_center`. -/
def calculate_velocity (sq : ℚ → ℚ) (d : FallDetector) (coords : List (ℚ × ℚ)) :
    ℚ × FallDetector :=
  let center := torso_center coords
  match d.previous_torso_center with
  | none => (0, { d with previous_torso_center := some center })
  | some prev =>
      let vx := center.1 - prev.1
      let vy := center.2 - prev.2
      (sq (vx ^ 2 + vy ^ 2), { d with previous_torso_center := some center })

/-- Confidence gate of `detect_fall`: some torso landmark has fewer than
three components or a confidence below `MIN_LANDMARK_CONFIDENCE`. -/
def lowConfidence (d : FallDetector) (landmarks : List (List ℚ)) : Bool :=
  [LEFT_SHOULDER, RIGHT_SHOULDER, LEFT_HIP, RIGHT_HIP].any fun idx =>
    (landmarks.getD idx []).length < 3 ∨
      (landmarks.getD idx []).getD 2 0 < d.MIN_LANDMARK_CONFIDENCE

/-- The `is_falling` classification of `detect_fall`: large tilt from either
axis combined with torso velocity above threshold. -/
def is_falling (d : FallDetector) (angle_v angle_h velocity : ℚ) : Bool :=
  (angle_v > d.TORSO_ANGLE_THRESHOLD_VERTICAL ∨
    angle_h > d.TORSO_ANGLE_THRESHOLD_HORIZONTAL) ∧
  velocity > d.VELOCITY_THRESHOLD

/-- The `is_lying` classification of `detect_fall`: tilt beyond threshold
plus a ten-degree margin, independent of velocity. -/
def is_lying (d : FallDetector) (angle_v angle_h : ℚ) : Bool :=
  angle_v > d.TORSO_ANGLE_THRESHOLD_VERTICAL + 10 ∨
    angle_h > d.TORSO_ANGLE_THRESHOLD_HORIZONTAL + 10

/-- The coordinate extraction of `detect_fall`
(`coords = [(lm[0], lm[1]) for lm in landmarks]`). -/
def obs_coords (landmarks : List (List ℚ)) : List (ℚ × ℚ) :=
  landmarks.map fun lm => (lm.getD 0 0, lm.getD 1 0)

/-- Whether `detect_fall` classifies this observation, against detector state
`d`, as "actively falling". -/
def step_falling (at2 : ℚ → ℚ → ℚ) (sq : ℚ → ℚ) (d : FallDetector)
    (landmarks : List (List ℚ)) : Bool :=
  d.is_falling (calculate_torso_angle at2 (obs_coords landmarks)).1
    (calculate_torso_angle at2 (obs_coords landmarks)).2
    (calculate_velocity sq d (obs_coords landmarks)).1

/-- Whether `detect_fall` classifies this observation as "lying". -/
def step_lying (at2 : ℚ → ℚ → ℚ) (d : FallDetector)
    (landmarks : List (List ℚ)) : Bool :=
  d.is_lying (calculate_torso_angle at2 (obs_coords landmarks)).1
    (calculate_torso_angle at2 (obs_coords landmarks)).2

/-- `FallDetector.detect_fall` — the full observation step: validity gate,
geometric signals, counter update, threshold check and reset-on-confirm.
Returns the boolean result and the updated detector. -/
def detect_fall (at2 : ℚ → ℚ → ℚ) (sq : ℚ → ℚ) (d : FallDetector)
    (landmarks : List (List ℚ)) : Bool × FallDetector :=
  if landmarks.isEmpty ∨ landmarks.length < 33 then (false, d.reset)
  else if d.lowConfidence landmarks then (false, d.reset)
  else
    let coords := obs_coords landmarks
    let angles := calculate_torso_angle at2 coords
    let vd := calculate_velocity sq d coords
    let falling := d.is_falling angles.1 angles.2 vd.1
    let lying := d.is_lying angles.1 angles.2
    let d2 :=
      if falling then
        { vd.2 with consecutive_frames_fallen := vd.2.consecutive_frames_fallen + 1
                    frames_in_fall_state := 0 }
      else if lying then
        { vd.2 with consecutive_frames_fallen := 0
                    frames_in_fall_state := vd.2.frames_in_fall_state + 1 }
      else
        { vd.2 with consecutive_frames_fallen := 0, frames_in_fall_state := 0 }
    let is_fall_detected :=
      d2.consecutive_frames_fallen ≥ d.FALL_DURATION_THRESHOLD ∨
        d2.frames_in_fall_state ≥ d.FALL_STATE_DURATION_THRESHOLD
    if is_fall_detected then (true, d2.reset) else (false, d2)

/-- The counter values after a valid observation: the consecutive-falling
counter advances exactly on a falling-classified frame. -/
def stepCCF (at2 : ℚ → ℚ → ℚ) (sq : ℚ → ℚ) (d : FallDetector)
    (landmarks : List (List ℚ)) : ℕ :=
  if step_falling at2 sq d landmarks then d.consecutive_frames_fallen + 1 else 0

/-- The consecutive-lying counter after a valid observation: advances exactly
on a lying-classified (and not falling-classified) frame. -/
def stepFIFS (at2 : ℚ → ℚ → ℚ) (sq : ℚ → ℚ) (d : FallDetector)
    (landmarks : List (List ℚ)) : ℕ :=
  if step_falling at2 sq d landmarks then 0
  else if step_lying at2 d landmarks then d.frames_in_fall_state + 1 else 0

/-- The validity gate of `detect_fall` as a predicate: enough landmarks and
reliable torso-landmark confidences. -/
def ValidLandmarks (d : FallDetector) (landmarks : List (List ℚ)) : Prop :=
  33 ≤ landmarks.length ∧ d.lowConfidence landmarks = false

instance (d : FallDetector) (landmarks : List (List ℚ)) :
    Decidable (ValidLandmarks d landmarks) := by
  unfold ValidLandmarks; infer_instance

end FallDetector

/-- Interpretation of `degrees ∘ atan2` used for concrete evaluations.  It
agrees with `math.degrees(math.atan2(y, x))` whenever `x = 0` or `y = 0`,
which covers every application in the concrete inputs below (axis-aligned
torso vectors). -/
def atan2degAxis (y x : ℚ) : ℚ :=
  if x = 0 then (if 0 < y then 90 else if y < 0 then -90 else 0)
  else if y = 0 then (if 0 < x then 0 else 180)
  else 0

/-- Interpretation of `math.sqrt` used for concrete evaluations; they only
apply it at `0`, where the square root is `0`. -/
def sqrtAt0 (_ : ℚ) : ℚ := 0

/-! ## Person tracker (src/detection/person_tracker.py)

A detection box is the list of its components `[x1, y1, x2, y2, conf, cls]`;
the tracker state is the insertion-ordered table `tracked_people` (a Python
dict from person id to box) plus the fresh-identity counter `next_id`.
`update` mutates its `detected_boxes` argument by popping matched boxes, so
the embedding returns three things: the updated tracker, the returned list
of `(person_id, box)` pairs, and the final contents of the caller-supplied
`detected_boxes` list. -/

structure PersonTracker where
  next_id : ℕ
  tracked_people : List (ℕ × List ℚ)
  iou_threshold : ℚ
  deriving DecidableEq, Repr

namespace PersonTracker

/-- `PersonTracker(iou_threshold=0.3)` — fresh tracker. -/
def init : PersonTracker := ⟨0, [], mkRat 3 10⟩

/-- `PersonTracker._calculate_iou` — Intersection over Union of two boxes in
`[x1, y1, x2, y2]` format (components beyond the list length default to
`0`; the source always passes four-element slices). -/
def calculate_iou (box1 box2 : List ℚ) : ℚ :=
  let x1_i := max (box1.getD 0 0) (box2.getD 0 0)
  let y1_i := max (box1.getD 1 0) (box2.getD 1 0)
  let x2_i := min (box1.getD 2 0) (box2.getD 2 0)
  let y2_i := min (box1.getD 3 0) (box2.getD 3 0)
  let intersection_area := max 0 (x2_i - x1_i) * max 0 (y2_i - y1_i)
  let box1_area := (box1.getD 2 0 - box1.getD 0 0) * (box1.getD 3 0 - box1.getD 1 0)
  let box2_area := (box2.getD 2 0 - box2.getD 0 0) * (box2.getD 3 0 - box2.getD 1 0)
  let union_area := box1_area + box2_area - intersection_area
  if union_area = 0 then 0 else intersection_area / union_area

/-- The inner loop of `update` for one tracked box: scan `detected_boxes` in
order and remove (`pop`) the first box whose IoU with `old_box` strictly
exceeds the threshold, as `for i, new_box in enumerate(...): ... break`
does.  Returns the matched box and the remaining pool, or `none`. -/
def matchFirst (thr : ℚ) (old_box : List ℚ) :
    List (List ℚ) → Option (List ℚ × List (List ℚ))
  | [] => none
  | nb :: rest =>
      if calculate_iou (old_box.take 4) (nb.take 4) > thr then some (nb, rest)
      else
        match matchFirst thr old_box rest with
        | some (m, rest') => some (m, nb :: rest')
        | none => none

/-- The outer matching loop of `update`: existing tracked identities, in
table order, each grab their first strictly-above-threshold match from the
shrinking detection pool.  Returns the matched `(person_id, new_box)` pairs
(in table order) and the boxes left unmatched. -/
def matchLoop (thr : ℚ) :
    List (ℕ × List ℚ) → List (List ℚ) → List (ℕ × List ℚ) × List (List ℚ)
  | [], boxes => ([], boxes)
  | (person_id, old_box) :: rest, boxes =>
      match matchFirst thr old_box boxes with
      | some (m, boxes') =>
          let r := matchLoop thr rest boxes'
          ((person_id, m) :: r.1, r.2)
      | none => matchLoop thr rest boxes

/-- Step 2 of `update`: remaining detections become new people with ids
`next_id`, `next_id + 1`, .... -/
def freshEntries (next_id : ℕ) : List (List ℚ) → List (ℕ × List ℚ)
  | [] => []
  | b :: bs => (next_id, b) :: freshEntries (next_id + 1) bs

/-- `PersonTracker.update` — returns the updated tracker, the list of
`(person_id, box)` pairs it hands back to the caller, and the final
contents of the caller's (mutated) `detected_boxes` list. -/
def update (t : PersonTracker) (detected_boxes : List (List ℚ)) :
    PersonTracker × List (ℕ × List ℚ) × List (List ℚ) :=
  let m := matchLoop t.iou_threshold t.tracked_people detected_boxes
  let current_tracked := m.1 ++ freshEntries t.next_id m.2
  (⟨t.next_id + m.2.length, current_tracked, t.iou_threshold⟩, current_tracked, m.2)

/-- Well-formedness of reachable tracker states: table ids are pairwise
distinct (they key a Python dict) and below the fresh-id counter. -/
def Inv (t : PersonTracker) : Prop :=
  (t.tracked_people.map Prod.fst).Nodup ∧
    ∀ i ∈ t.tracked_people.map Prod.fst, i < t.next_id

instance (t : PersonTracker) : Decidable t.Inv := by
  unfold Inv; infer_instance

end PersonTracker

/-! ## Detection processor (src/processing/detection_processor.py)

The processor correlates camera and remote observations, deduplicates and
rate-limits alerts, persists events and dispatches notifications.  Remote
payloads are JSON values; the camera and remote paths share the cooldown
and deduplication dictionaries, whose keys may be camera entity strings or
arbitrary hashable `device_id` payload values, so those dictionary keys
are modelled as JSON scalars (an unhashable `device_id` never reaches a
dictionary: the lookup on it raises).  Keys are compared structurally;
Python's cross-type numeric key equality (`True == 1`) is not modelled. -/

/-- A scalar JSON value. -/
inductive JAtom where
  | null
  | bool (b : Bool)
  | num (q : ℚ)
  | str (s : String)
  deriving DecidableEq, Repr

/-- A field value of a remote payload object: a scalar, or a container —
an array or a nested object — whose own entries are scalars.  Every
distinction the handler draws about a field value (truthiness, `is True`,
`isinstance(x, (int, float))`, `isinstance(x, bool)`, hashability) depends
only on the value's outermost constructor and, for truthiness of a
container, on its emptiness, so one container level suffices. -/
inductive JField where
  | atom (a : JAtom)
  | arr (elems : List JAtom)
  | obj (fields : List (String × JAtom))
  deriving DecidableEq, Repr

/-- A JSON value as produced by `json.loads` for an MQTT payload: a scalar,
an array, or an object — ordered field lists with unique keys (`dict`
semantics).  JSON numbers are rationals (ints and floats). -/
inductive JValue where
  | atom (a : JAtom)
  | arr (elems : List JField)
  | obj (fields : List (String × JField))
  deriving DecidableEq, Repr

namespace JAtom

/-- Python truthiness of a scalar (`not x` is `truthy x = false`): `None`,
`False`, zero and the empty string are falsy. -/
def truthy : JAtom → Bool
  | .null => false
  | .bool b => b
  | .num q => q ≠ 0
  | .str s => s ≠ ""

/-- Rendering of a scalar inside a Python f-string. -/
def pyStr : JAtom → String
  | .null => "None"
  | .bool true => "True"
  | .bool false => "False"
  | .num q => toString q
  | .str s => s

end JAtom

namespace JField

/-- Python truthiness of a field value: scalars as for `JAtom`; a
container is falsy exactly when it is empty. -/
def truthy : JField → Bool
  | .atom a => a.truthy
  | .arr l => decide (l ≠ [])
  | .obj f => decide (f ≠ [])

end JField

/-- `mqtt_msg.get(key)`.  A present-but-`null` field is returned as `none`:
`json.loads` turns JSON `null` into Python `None`, the very value
`dict.get` yields for an absent key, so the handler cannot tell the two
apart. -/
def jget (fields : List (String × JField)) (key : String) : Option JField :=
  match (fields.find? fun p => p.1 = key).map Prod.snd with
  | some (.atom .null) => none
  | x => x

/-- `isinstance(x, (int, float))` plus the numeric value.  Python booleans
subclass `int` (`True == 1`, `False == 0`), so they count as numbers. -/
def jnumF : JField → Option ℚ
  | .atom (.num q) => some q
  | .atom (.bool b) => some (if b then 1 else 0)
  | _ => none

/-- `jnumF` on an optional field value. -/
def jnum (x : Option JField) : Option ℚ := x.bind jnumF

/-- Association-list lookup standing for Python dict indexing. -/
def dictGet {κ α : Type} [DecidableEq κ] (m : List (κ × α)) (k : κ) : Option α :=
  (m.find? fun p => p.1 = k).map Prod.snd

/-- Association-list update standing for Python dict assignment: overwrite
in place when the key exists, append otherwise. -/
def dictSet {κ α : Type} [DecidableEq κ] (m : List (κ × α)) (k : κ) (v : α) :
    List (κ × α) :=
  if (dictGet m k).isSome then m.map fun p => if p.1 = k then (k, v) else p
  else m ++ [(k, v)]

/-- A Fall Event dict as built by `DetectionProcessor._create_fall_event`. -/
structure FallEvent where
  timestamp : ℚ
  source : String
  entity_id : JAtom
  fall_detected : Bool
  latitude : Option ℚ
  longitude : Option ℚ
  has_gps_fix : Bool
  deriving DecidableEq, Repr

/-- Outcome of one call to `insert_fall_event`
(src/database/database_manager.py): `ok id` — the row was inserted and
`cursor.lastrowid` returned; `dbError` — an `sqlite3.Error` was caught (or
no connection was obtained) and the function RETURNED `None`; `raised` — the
call raised an exception (only non-sqlite failures, e.g. a
`datetime.fromtimestamp` overflow or a thread-pool error, escape
`insert_fall_event`). -/
inductive InsertOutcome where
  | ok (id : ℕ)
  | dbError
  | raised
  deriving DecidableEq, Repr

/-- Explicit environment for one handler call: the wall clock (`now` for
cooldown arithmetic, in minutes; `now_ts` for `datetime.now().timestamp()`)
and the outcome of each successive `insert_fall_event` attempt. -/
structure Env where
  now : ℚ
  now_ts : ℚ
  insert : ℕ → InsertOutcome

/-- The one exception that can escape a handler past its validation: a
payload whose truthy, otherwise valid `device_id` is a container (a JSON
array or object) is unhashable, so the
`self.last_fall_timestamps.get(device_id)` lookup — the first statement
`_can_alert` executes — raises `TypeError`, which no frame of
`handle_mqtt_data` catches. -/
inductive PyExn where
  | typeError
  deriving DecidableEq, Repr

/-- Observable effects of one handler call: what was persisted (event and
row id), how many insert attempts ran, the backoff sleeps between them,
the message handed to each notification channel by `_send_alerts` (channel
delivery failures are swallowed by the source and cannot influence
anything downstream, so only the handed-off message is recorded), and the
exception the call raised to its caller instead of returning, if any. -/
structure Effects where
  persisted : Option (FallEvent × ℕ)
  insert_attempts : ℕ
  backoff_sleeps : List ℚ
  ami_call : Option String
  telegram_call : Option String
  raised : Option PyExn := none
  deriving DecidableEq, Repr

/-- No observable effect: a normal return that persisted and dispatched
nothing. -/
def noEffects : Effects := ⟨none, 0, [], none, none, none⟩

/-- `DetectionProcessor` state: per-entity fall detectors, the cooldown
ledger `last_alert_timestamps`, the deduplication ledger
`last_fall_timestamps`, and the configurable cooldown window. -/
structure DPState where
  fall_detectors : List (String × FallDetector)
  last_alert_timestamps : List (JAtom × ℚ)
  last_fall_timestamps : List (JAtom × ℚ)
  cooldown_minutes : ℚ
  deriving DecidableEq, Repr

namespace DPState

/-- Freshly constructed processor (`__init__`): empty dictionaries,
one-minute cooldown. -/
def init : DPState := ⟨[], [], [], 1⟩

/-- Line 248 of the source: the cooldown for `entity_id` has expired when no
alert was recorded or strictly more than `cooldown_minutes` have passed. -/
def is_cooldown_expired (s : DPState) (now : ℚ) (entity_id : JAtom) : Bool :=
  match dictGet s.last_alert_timestamps entity_id with
  | none => true
  | some last_alert => now - last_alert > s.cooldown_minutes

/-- `DetectionProcessor._can_alert` — the deduplication check (for calls
carrying a device event timestamp) followed by the cooldown check.  A fresh
event timestamp is recorded inside the check itself, before the cooldown
decision; an identical timestamp is dropped before the cooldown check
runs.  Returns the decision and the updated state. -/
def can_alert (s : DPState) (now : ℚ) (entity_id : JAtom)
    (event_ts : Option ℚ) : Bool × DPState :=
  match event_ts with
  | none => (s.is_cooldown_expired now entity_id, s)
  | some ts =>
      if dictGet s.last_fall_timestamps entity_id = some ts then (false, s)
      else
        let s' := { s with
          last_fall_timestamps := dictSet s.last_fall_timestamps entity_id ts }
        (s'.is_cooldown_expired now entity_id, s')

/-- `DetectionProcessor._update_last_alert`. -/
def update_last_alert (s : DPState) (now : ℚ) (entity_id : JAtom) : DPState :=
  { s with last_alert_timestamps := dictSet s.last_alert_timestamps entity_id now }

/-- `DetectionProcessor._get_or_create_detector`. -/
def get_or_create_detector (s : DPState) (entity_id : String) :
    FallDetector × DPState :=
  match dictGet s.fall_detectors entity_id with
  | some d => (d, s)
  | none =>
      (FallDetector.init,
       { s with fall_detectors := dictSet s.fall_detectors entity_id FallDetector.init })

end DPState

/-- `DetectionProcessor._create_fall_event` — the event dict; a `None`
timestamp argument falls back to the current wall-clock timestamp. -/
def create_fall_event (now_ts : ℚ) (source : String) (entity_id : JAtom)
    (latitude longitude : Option ℚ) (has_gps_fix : Bool)
    (timestamp : Option ℚ) : FallEvent :=
  { timestamp := timestamp.getD now_ts
    source := source
    entity_id := entity_id
    fall_detected := true
    latitude := latitude
    longitude := longitude
    has_gps_fix := has_gps_fix }

/-- The attempt loop of `_insert_fall_event_with_retry`, on the remaining
attempt budget: a successful attempt returns the row id; an attempt on
which `insert_fall_event` returns `None` (swallowed sqlite error) returns
`None` as the result AT ONCE; only a raised exception sleeps
`1 * 2 ^ attempt` seconds and retries.  Returns the result, the number of
insert calls made, and the backoff sleeps performed. -/
def insertAttempts (insert : ℕ → InsertOutcome) :
    ℕ → ℕ → Option ℕ × ℕ × List ℚ
  | _, 0 => (none, 0, [])
  | attempt, n + 1 =>
      match insert attempt with
      | .ok id => (some id, 1, [])
      | .dbError => (none, 1, [])
      | .raised =>
          let r := insertAttempts insert (attempt + 1) n
          (r.1, r.2.1 + 1, ((2 : ℚ) ^ attempt) :: r.2.2)

/-- `DetectionProcessor._insert_fall_event_with_retry` with its default
budget of `retries = 3` attempts. -/
def insert_fall_event_with_retry (insert : ℕ → InsertOutcome) :
    Option ℕ × ℕ × List ℚ :=
  insertAttempts insert 0 3

/-- `DetectionProcessor.handle_camera_data` — run the entity's fall state
machine on the landmarks and, on a confirmed fall that passes the cooldown
check, persist the event and dispatch the alert.  The frame argument only
feeds drawing and the optional Telegram photo and is omitted. -/
def handle_camera_data (at2 : ℚ → ℚ → ℚ) (sq : ℚ → ℚ) (env : Env)
    (s : DPState) (person_id : ℕ) (landmarks : List (List ℚ)) :
    DPState × Effects :=
  let entity_id := "camera_person_" ++ Nat.repr person_id
  let gd := s.get_or_create_detector entity_id
  let fd := FallDetector.detect_fall at2 sq gd.1 landmarks
  let s1 := { gd.2 with fall_detectors := dictSet gd.2.fall_detectors entity_id fd.2 }
  if fd.1 then
    let ca := s1.can_alert env.now (.str entity_id) none
    if ca.1 then
      let fall_event :=
        create_fall_event env.now_ts "camera" (.str entity_id) (some 0) (some 0) false none
      let ir := insert_fall_event_with_retry env.insert
      match ir.1 with
      | none =>
          (ca.2, { persisted := none, insert_attempts := ir.2.1,
                   backoff_sleeps := ir.2.2, ami_call := none, telegram_call := none })
      | some fall_id =>
          let alert_msg :=
            "⚠️ Fall detected by camera for " ++ entity_id ++ ". Event ID: " ++
              Nat.repr fall_id
          (ca.2.update_last_alert env.now (.str entity_id),
           { persisted := some (fall_event, fall_id), insert_attempts := ir.2.1,
             backoff_sleeps := ir.2.2, ami_call := some alert_msg,
             telegram_call := some alert_msg })
    else (ca.2, noEffects)
  else (s1, noEffects)

/-- The GPS clause of `handle_mqtt_data`: when BOTH coordinates are present
(`latitude is not None and longitude is not None`, so a `null` coordinate
reads as absent) they must be numeric — booleans included — and within
`[-90, 90] × [-180, 180]`; a lone coordinate is not validated. -/
def gpsValid (latitude longitude : Option JField) : Bool :=
  match latitude, longitude with
  | some la, some lo =>
      match jnumF la, jnumF lo with
      | some laq, some loq =>
          decide (-90 ≤ laq ∧ laq ≤ 90 ∧ -180 ≤ loq ∧ loq ≤ 180)
      | _, _ => false
  | _, _ => true

/-- `None`-aware f-string rendering of an optional number. -/
def optNumStr : Option ℚ → String
  | some q => toString q
  | none => "None"

/-- The remote path after validation (lines 100–115 of the source): the
deduplication-and-cooldown decision by `_can_alert`, then persistence with
retry, then alert dispatch and the cooldown-ledger update. -/
def process_valid_report (env : Env) (s : DPState) (dev : JAtom) (ts : ℚ)
    (lat lon : Option ℚ) (has_gps_fix : Bool) : DPState × Effects :=
  let ca := s.can_alert env.now dev (some ts)
  if ca.1 then
    let fall_event :=
      create_fall_event env.now_ts "esp32" dev lat lon has_gps_fix (some ts)
    let ir := insert_fall_event_with_retry env.insert
    match ir.1 with
    | none =>
        (ca.2, { persisted := none, insert_attempts := ir.2.1,
                 backoff_sleeps := ir.2.2, ami_call := none,
                 telegram_call := none })
    | some fall_id =>
        let gps_info :=
          match has_gps_fix, lat with
          | true, some laq => toString laq ++ ", " ++ optNumStr lon
          | _, _ => "Unknown"
        let alert_msg :=
          "🚨 Fall detected by device " ++ dev.pyStr ++ " at GPS: " ++
            gps_info ++ ". Event ID: " ++ Nat.repr fall_id
        (ca.2.update_last_alert env.now dev,
         { persisted := some (fall_event, fall_id),
           insert_attempts := ir.2.1, backoff_sleeps := ir.2.2,
           ami_call := some alert_msg, telegram_call := some alert_msg })
  else (ca.2, noEffects)

/-- `DetectionProcessor.handle_mqtt_data` — validate the remote payload in
source order (truthy `device_id`, `fall_detected is True`, numeric
`timestamp`, then the GPS clause), then run the
deduplication/cooldown/persist/dispatch pipeline
(`process_valid_report`).  Every malformed payload is logged and dropped
(`(s, noEffects)`).  A payload that passes every check but whose
`device_id` is an unhashable container dies at the very next statement,
the `last_fall_timestamps.get(device_id)` lookup opening `_can_alert`:
nothing catches that `TypeError`, so the call raises it to the caller
having mutated no state — recorded as `raised := some .typeError`.  The
event dict and the alert text carry the numeric reading of each
coordinate (`none` when a lone, unvalidated coordinate has no numeric
reading). -/
def handle_mqtt_data (env : Env) (s : DPState) (mqtt_msg : JValue) :
    DPState × Effects :=
  match mqtt_msg with
  | .obj fields =>
      let device_id := jget fields "device_id"
      let fall_detected := jget fields "fall_detected"
      let event_ts := jget fields "timestamp"
      match device_id with
      | none => (s, noEffects)
      | some dev =>
          if dev.truthy = false then (s, noEffects)
          else if fall_detected ≠ some (JField.atom (.bool true)) then (s, noEffects)
          else
            match jnum event_ts with
            | none => (s, noEffects)
            | some ts =>
                let latitude := jget fields "latitude"
                let longitude := jget fields "longitude"
                if gpsValid latitude longitude = false then (s, noEffects)
                else
                  let has_gps_fix :=
                    match jget fields "has_gps_fix" with
                    | some (.atom (.bool b)) => b
                    | _ => false
                  match dev with
                  | .atom a =>
                      process_valid_report env s a ts (jnum latitude)
                        (jnum longitude) has_gps_fix
                  | _ => (s, { noEffects with raised := some .typeError })
  | _ => (s, noEffects)

/-! ## Concrete inputs for witnesses and counterexamples -/

/-- A 33-landmark observation of a horizontal torso: shoulders at `(1, 0)`,
hips at `(0, 0)`, every landmark fully confident.  The torso direction is
`(dx, dy) = (1, 0)`, so under the true `math.degrees(math.atan2(dx, dy))`
the deviation from vertical is exactly 90° and from horizontal exactly 0°
— values `atan2degAxis` reproduces. -/
def lyingObs : List (List ℚ) :=
  (List.range 33).map fun i => if i = 11 ∨ i = 12 then [1, 0, 1] else [0, 0, 1]

/-- A detector constructed as
`FallDetector(fall_state_duration_threshold=1)`: the constructor keeps the
caller's value since `1` is truthy. -/
def detectorLying1 : FallDetector :=
  { FallDetector.init with FALL_STATE_DURATION_THRESHOLD := 1 }

/-- A default-threshold detector that has already seen four consecutive
lying observations. -/
def detectorLying4 : FallDetector :=
  { FallDetector.init with frames_in_fall_state := 4 }

/-- A detector with accumulated internal state, about to receive invalid
landmarks. -/
def detectorDirty : FallDetector :=
  { FallDetector.init with consecutive_frames_fallen := 3
                           frames_in_fall_state := 2
                           previous_torso_center := some (5, 7) }

/-- A minimal well-formed remote fall report for device `dev` with event
timestamp `ts` (no GPS fields), as in the spec's deduplication scenario
`{"device_id": "dev1", "fall_detected": true, "timestamp": 1000, ...}`. -/
def dedupPayload (dev : JAtom) (ts : ℚ) : JValue :=
  .obj [("device_id", .atom dev), ("fall_detected", .atom (.bool true)),
        ("timestamp", .atom (.num ts))]

/-- The remote payload of the deduplication scenario:
`{"device_id": "dev1", "fall_detected": true, "timestamp": 1000}`. -/
def payloadDev1 : JValue := dedupPayload (.str "dev1") 1000

/-- The same payload without the `"timestamp"` field. -/
def payloadNoTs : JValue :=
  .obj [("device_id", .atom (.str "dev1")), ("fall_detected", .atom (.bool true))]

/-- A payload valid in every listed respect whose device id is a non-empty
JSON object `{"id": 7}` — truthy, but unhashable. -/
def payloadDevObj : JValue :=
  .obj [("device_id", .obj [("id", .num 7)]),
        ("fall_detected", .atom (.bool true)), ("timestamp", .atom (.num 1000))]

/-- A payload exercising the permissive edges of validation: the event
timestamp is the boolean `true` (numeric, since `bool` subclasses `int`)
and both GPS coordinates are present but `null` (read as absent, so the
GPS clause is skipped). -/
def payloadBoolTs : JValue :=
  .obj [("device_id", .atom (.str "dev1")), ("fall_detected", .atom (.bool true)),
        ("timestamp", .atom (.bool true)), ("latitude", .atom .null),
        ("longitude", .atom .null)]

/-- An environment whose database insert succeeds at once with row id 1. -/
def envOk : Env := ⟨0, 0, fun _ => .ok 1⟩

/-- An environment whose database insert fails with a swallowed sqlite
error (`insert_fall_event` returns `None`) on every attempt. -/
def envDbError : Env := ⟨0, 0, fun _ => .dbError⟩

/-- Processor state holding a camera detector for person 0 that has already
seen four consecutive lying observations. -/
def stateCam4 : DPState :=
  { DPState.init with fall_detectors := [("camera_person_0", detectorLying4)] }

/-- A tracker holding identity 0 at box `[0, 0, 10, 10]` with the default
0.3 IoU threshold. -/
def trackerOne : PersonTracker := ⟨1, [(0, [0, 0, 10, 10])], mkRat 3 10⟩

/-- A detection box whose IoU with `[0, 0, 10, 10]` is exactly `3/10`:
the intersection is `10 × 3 = 30` and the union is `100`. -/
def boxIoU03 : List ℚ := [0, 0, 10, 3, 1, 0]

/-- A detection box whose IoU with `[0, 0, 10, 10]` is `2/5`, strictly
above the `3/10` threshold. -/
def boxIoU04 : List ℚ := [0, 0, 10, 4, 1, 0]

/-! ## Helper lemmas -/

namespace FallDetector

theorem calculate_velocity_snd (sq : ℚ → ℚ) (d : FallDetector) (cs : List (ℚ × ℚ)) :
    (calculate_velocity sq d cs).2 =
      { d with previous_torso_center := some (torso_center cs) } := by
  unfold calculate_velocity
  cases d.previous_torso_center <;> rfl

theorem calculate_velocity_fst_none (sq : ℚ → ℚ) (d : FallDetector)
    (cs : List (ℚ × ℚ)) (h : d.previous_torso_center = none) :
    (calculate_velocity sq d cs).1 = 0 := by
  unfold calculate_velocity
  rw [h]

/-- With a non-negative velocity threshold, a zero-velocity observation is
never classified "actively falling". -/
theorem is_falling_zero (d : FallDetector) (av ah : ℚ)
    (hV : 0 ≤ d.VELOCITY_THRESHOLD) : d.is_falling av ah 0 = false := by
  unfold is_falling
  simp only [decide_eq_false_iff_not]
  rintro ⟨-, h⟩
  exact absurd h (not_lt.mpr hV)

/-- Normal form of a `detect_fall` step on valid landmarks: the counters
advance according to the frame classification, the result fires exactly when
an advanced counter reaches its threshold, and firing resets the state. -/
theorem detect_fall_valid (at2 : ℚ → ℚ → ℚ) (sq : ℚ → ℚ) (d : FallDetector)
    (lm : List (List ℚ)) (hlen : 33 ≤ lm.length)
    (hconf : d.lowConfidence lm = false) :
    detect_fall at2 sq d lm =
      if d.FALL_DURATION_THRESHOLD ≤ stepCCF at2 sq d lm ∨
          d.FALL_STATE_DURATION_THRESHOLD ≤ stepFIFS at2 sq d lm
      then (true, d.reset)
      else (false, { d with consecutive_frames_fallen := stepCCF at2 sq d lm,
                            frames_in_fall_state := stepFIFS at2 sq d lm,
                            previous_torso_center :=
                              some (torso_center (obs_coords lm)) }) := by
  have hempty : ¬(lm.isEmpty ∨ lm.length < 33) := by
    rw [List.isEmpty_iff]
    rintro (h | h)
    · simp [h] at hlen
    · omega
  have hcne : ¬(d.lowConfidence lm = true) := by simp [hconf]
  unfold detect_fall
  rw [if_neg hempty, if_neg hcne]
  simp only [calculate_velocity_snd]
  unfold stepCCF stepFIFS step_falling step_lying
  by_cases hf : d.is_falling (calculate_torso_angle at2 (obs_coords lm)).1
      (calculate_torso_angle at2 (obs_coords lm)).2
      (calculate_velocity sq d (obs_coords lm)).1 <;>
    by_cases hl : d.is_lying (calculate_torso_angle at2 (obs_coords lm)).1
      (calculate_torso_angle at2 (obs_coords lm)).2 <;>
    simp only [hf, hl, if_true, if_false, ite_true, ite_false] <;>
    split_ifs <;> rfl

/-- From a just-reset detector state with sane thresholds, a single valid
observation can never confirm a fall: whatever the classification, the
advanced counter is at most `1` and the first frame after a reset has zero
velocity. -/
theorem detect_fall_after_reset_false (at2 : ℚ → ℚ → ℚ) (sq : ℚ → ℚ)
    (d' : FallDetector) (lm : List (List ℚ)) (hlen : 33 ≤ lm.length)
    (h2 : d'.frames_in_fall_state = 0)
    (h3 : d'.previous_torso_center = none)
    (h4 : 1 ≤ d'.FALL_DURATION_THRESHOLD)
    (h5 : 2 ≤ d'.FALL_STATE_DURATION_THRESHOLD)
    (h6 : 0 ≤ d'.VELOCITY_THRESHOLD)
    (h7 : d'.lowConfidence lm = false) :
    (detect_fall at2 sq d' lm).1 = false := by
  rw [detect_fall_valid at2 sq d' lm hlen h7]
  unfold stepCCF stepFIFS step_falling step_lying
  rw [calculate_velocity_fst_none sq d' _ h3]
  rw [is_falling_zero d' _ _ h6]
  simp only [Bool.false_eq_true, if_false, ite_false, h2]
  split_ifs <;> first | rfl | omega

end FallDetector

namespace PersonTracker

theorem matchFirst_some (thr : ℚ) (old_box : List ℚ) (boxes : List (List ℚ))
    (m : List ℚ) (rest : List (List ℚ))
    (h : matchFirst thr old_box boxes = some (m, rest)) :
    ∃ p q, boxes = p ++ m :: q ∧ rest = p ++ q ∧
      calculate_iou (old_box.take 4) (m.take 4) > thr ∧
      ∀ b ∈ p, ¬(calculate_iou (old_box.take 4) (b.take 4) > thr) := by
  induction boxes generalizing m rest with
  | nil => simp [matchFirst] at h
  | cons nb bs ih =>
      rw [matchFirst] at h
      split_ifs at h with hiou
      · obtain ⟨hm, hrest⟩ := Prod.mk.injEq .. ▸ (Option.some.injEq .. ▸ h)
        exact ⟨[], bs, by simp [hm.symm], by simp [hrest.symm], hm ▸ hiou, by simp⟩
      · revert h
        match hrec : matchFirst thr old_box bs with
        | some (m', rest') =>
            intro h
            obtain ⟨hm, hrest⟩ := Prod.mk.injEq .. ▸ (Option.some.injEq .. ▸ h)
            obtain ⟨p, q, hb, hr, hio, hall⟩ := ih m' rest' hrec
            refine ⟨nb :: p, q, by simp [hb, hm.symm], ?_, hm ▸ hio, ?_⟩
            · simp [hr, hrest.symm]
            · intro b hb'
              rcases List.mem_cons.mp hb' with hb' | hb'
              · exact hb' ▸ hiou
              · exact hall b hb'
        | none => intro h; exact absurd h (by simp)

theorem matchFirst_isSome (thr : ℚ) (old_box : List ℚ) (boxes : List (List ℚ))
    (h : ∃ b ∈ boxes, calculate_iou (old_box.take 4) (b.take 4) > thr) :
    (matchFirst thr old_box boxes).isSome := by
  induction boxes with
  | nil => simp at h
  | cons nb bs ih =>
      rw [matchFirst]
      split_ifs with hiou
      · rfl
      · obtain ⟨b, hb, hgt⟩ := h
        rcases List.mem_cons.mp hb with rfl | hb
        · exact absurd hgt hiou
        · have := ih ⟨b, hb, hgt⟩
          revert this
          match matchFirst thr old_box bs with
          | some (m', rest') => intro; rfl
          | none => intro hh; simp at hh

theorem matchFirst_none (thr : ℚ) (old_box : List ℚ) (boxes : List (List ℚ))
    (h : matchFirst thr old_box boxes = none) :
    ∀ b ∈ boxes, ¬(calculate_iou (old_box.take 4) (b.take 4) > thr) := by
  intro b hb
  intro hgt
  have := matchFirst_isSome thr old_box boxes ⟨b, hb, hgt⟩
  rw [h] at this
  simp at this

theorem matchFirst_rest_sublist (thr : ℚ) (old_box : List ℚ)
    (boxes : List (List ℚ)) (m : List ℚ) (rest : List (List ℚ))
    (h : matchFirst thr old_box boxes = some (m, rest)) :
    rest.Sublist boxes ∧ boxes.length = rest.length + 1 := by
  obtain ⟨p, q, hb, hr, -, -⟩ := matchFirst_some thr old_box boxes m rest h
  subst hb hr
  constructor
  · exact List.Sublist.append (List.Sublist.refl p) (List.sublist_cons_self m q)
  · simp [List.length_append]; omega

theorem matchLoop_append (thr : ℚ) (l1 l2 : List (ℕ × List ℚ))
    (boxes : List (List ℚ)) :
    matchLoop thr (l1 ++ l2) boxes =
      ((matchLoop thr l1 boxes).1 ++ (matchLoop thr l2 (matchLoop thr l1 boxes).2).1,
       (matchLoop thr l2 (matchLoop thr l1 boxes).2).2) := by
  induction l1 generalizing boxes with
  | nil => simp [matchLoop]
  | cons e rest ih =>
      obtain ⟨pid, old_box⟩ := e
      rw [List.cons_append, matchLoop, matchLoop]
      match matchFirst thr old_box boxes with
      | some (m, boxes') => simp [ih boxes']
      | none => exact ih boxes

theorem matchLoop_ids_sublist (thr : ℚ) (tracked : List (ℕ × List ℚ))
    (boxes : List (List ℚ)) :
    ((matchLoop thr tracked boxes).1.map Prod.fst).Sublist
      (tracked.map Prod.fst) := by
  induction tracked generalizing boxes with
  | nil => simp [matchLoop]
  | cons e rest ih =>
      obtain ⟨pid, old_box⟩ := e
      rw [matchLoop]
      match matchFirst thr old_box boxes with
      | some (m, boxes') =>
          simpa using List.Sublist.cons₂ pid (ih boxes')
      | none =>
          exact List.Sublist.trans (ih boxes) (List.sublist_cons_self _ _)

theorem matchLoop_rest_sublist (thr : ℚ) (tracked : List (ℕ × List ℚ))
    (boxes : List (List ℚ)) :
    (matchLoop thr tracked boxes).2.Sublist boxes ∧
      boxes.length =
        (matchLoop thr tracked boxes).1.length + (matchLoop thr tracked boxes).2.length := by
  induction tracked generalizing boxes with
  | nil => simp [matchLoop]
  | cons e rest ih =>
      obtain ⟨pid, old_box⟩ := e
      rw [matchLoop]
      match hmf : matchFirst thr old_box boxes with
      | some (m, boxes') =>
          obtain ⟨hsub, hlen⟩ := matchFirst_rest_sublist thr old_box boxes m boxes' hmf
          obtain ⟨ihs, ihl⟩ := ih boxes'
          exact ⟨List.Sublist.trans ihs hsub, by simp; omega⟩
      | none => exact ih boxes

theorem freshEntries_map_fst (n : ℕ) (bs : List (List ℚ)) :
    (freshEntries n bs).map Prod.fst = List.range' n bs.length := by
  induction bs generalizing n with
  | nil => simp [freshEntries]
  | cons b bs ih =>
      rw [freshEntries]
      simp only [List.map_cons, ih]
      rfl

theorem freshEntries_map_snd (n : ℕ) (bs : List (List ℚ)) :
    (freshEntries n bs).map Prod.snd = bs := by
  induction bs generalizing n with
  | nil => simp [freshEntries]
  | cons b bs ih => simp [freshEntries, ih]

theorem freshEntries_mem_ge (n : ℕ) (bs : List (List ℚ)) :
    ∀ e ∈ freshEntries n bs, n ≤ e.1 := by
  induction bs generalizing n with
  | nil => simp [freshEntries]
  | cons b bs ih =>
      intro e he
      rw [freshEntries] at he
      rcases List.mem_cons.mp he with rfl | he
      · exact le_refl n
      · exact le_trans (Nat.le_succ n) (ih (n + 1) e he)

end PersonTracker

/-! ### Dictionary and processor lemmas -/

theorem dictGet_dictSet {κ α : Type} [DecidableEq κ] (m : List (κ × α))
    (k : κ) (v : α) : dictGet (dictSet m k v) k = some v := by
  simp only [dictGet, dictSet]
  by_cases hs : ((m.find? fun p => decide (p.1 = k)).map Prod.snd).isSome
  · rw [if_pos hs]
    have hf : ∃ p₀, m.find? (fun p => decide (p.1 = k)) = some p₀ := by
      cases hfind : m.find? (fun p => decide (p.1 = k)) with
      | none => rw [hfind] at hs; simp at hs
      | some p₀ => exact ⟨p₀, rfl⟩
    obtain ⟨p₀, hp₀⟩ := hf
    have hk : p₀.1 = k := by simpa using List.find?_some hp₀
    rw [List.find?_map]
    have hpred : ((fun p => decide ((p : κ × α).1 = k)) ∘
        fun p => if p.1 = k then (k, v) else p) = fun p => decide (p.1 = k) := by
      funext p
      by_cases h : p.1 = k <;> simp [h]
    rw [hpred, hp₀]
    simp [hk]
  · rw [if_neg hs]
    have hnone : m.find? (fun p => decide (p.1 = k)) = none := by
      cases hfind : m.find? (fun p => decide (p.1 = k)) with
      | none => rfl
      | some p₀ => rw [hfind] at hs; simp at hs
    rw [List.find?_append, hnone]
    simp [List.find?]

theorem is_cooldown_expired_set_fall (s : DPState) (v : List (JAtom × ℚ))
    (now : ℚ) (k : JAtom) :
    ({ s with last_fall_timestamps := v } : DPState).is_cooldown_expired now k =
      s.is_cooldown_expired now k := rfl

theorem can_alert_fresh (s : DPState) (now : ℚ) (k : JAtom) (ts : ℚ)
    (hFresh : dictGet s.last_fall_timestamps k ≠ some ts) :
    s.can_alert now k (some ts) =
      (s.is_cooldown_expired now k,
       { s with last_fall_timestamps := dictSet s.last_fall_timestamps k ts }) := by
  simp only [DPState.can_alert]
  rw [if_neg hFresh]
  rfl

theorem can_alert_dup (s : DPState) (now : ℚ) (k : JAtom) (ts : ℚ)
    (hDup : dictGet s.last_fall_timestamps k = some ts) :
    s.can_alert now k (some ts) = (false, s) := by
  simp only [DPState.can_alert]
  rw [if_pos hDup]

theorem handle_mqtt_dedupPayload (env : Env) (s : DPState) (dev : JAtom)
    (ts : ℚ) (hT : dev.truthy = true) :
    handle_mqtt_data env s (dedupPayload dev ts) =
      process_valid_report env s dev ts none none false := by
  cases dev with
  | null => simp [JAtom.truthy] at hT
  | bool b =>
      simp only [JAtom.truthy] at hT
      subst hT
      rfl
  | num q =>
      simp only [JAtom.truthy, decide_eq_true_eq] at hT
      simp [handle_mqtt_data, dedupPayload, jget, jnum, jnumF, gpsValid,
        JField.truthy, JAtom.truthy, List.find?, hT]
  | str t =>
      simp only [JAtom.truthy, decide_eq_true_eq] at hT
      simp [handle_mqtt_data, dedupPayload, jget, jnum, jnumF, gpsValid,
        JField.truthy, JAtom.truthy, List.find?, hT]

theorem insert_retry_ok_first (f : ℕ → InsertOutcome) (id : ℕ)
    (h : f 0 = .ok id) :
    insert_fall_event_with_retry f = (some id, 1, []) := by
  unfold insert_fall_event_with_retry insertAttempts
  rw [h]

theorem is_cooldown_expired_goc (s : DPState) (eid : String) (now : ℚ) (k : JAtom) :
    (s.get_or_create_detector eid).2.is_cooldown_expired now k =
      s.is_cooldown_expired now k := by
  unfold DPState.get_or_create_detector
  cases dictGet s.fall_detectors eid <;> rfl

theorem is_cooldown_expired_true (s : DPState) (now : ℚ) (k : JAtom) (la : ℚ)
    (h : s.is_cooldown_expired now k = true)
    (hla : dictGet s.last_alert_timestamps k = some la) :
    now - la > s.cooldown_minutes := by
  unfold DPState.is_cooldown_expired at h
  rw [hla] at h
  simpa using h

theorem is_cooldown_expired_false (s : DPState) (now : ℚ) (k : JAtom) (la : ℚ)
    (hla : dictGet s.last_alert_timestamps k = some la)
    (h : ¬(now - la > s.cooldown_minutes)) :
    s.is_cooldown_expired now k = false := by
  unfold DPState.is_cooldown_expired
  rw [hla]
  simpa using h

/-- A positive `_can_alert` decision implies the cooldown window for the key
had expired relative to every recorded last-alert time. -/
theorem can_alert_true_cooldown (s : DPState) (now : ℚ) (k : JAtom)
    (ts? : Option ℚ) (la : ℚ)
    (hA : (s.can_alert now k ts?).1 = true)
    (hla : dictGet s.last_alert_timestamps k = some la) :
    now - la > s.cooldown_minutes := by
  unfold DPState.can_alert at hA
  match ts? with
  | none => exact is_cooldown_expired_true s now k la hA hla
  | some ts =>
      simp only [] at hA
      split_ifs at hA with hdup
      have hla' : dictGet (DPState.mk s.fall_detectors s.last_alert_timestamps
          (dictSet s.last_fall_timestamps k ts)
          s.cooldown_minutes).last_alert_timestamps k = some la := hla
      exact is_cooldown_expired_true _ now k la hA hla'

theorem toDigitsCore_length (b f n : ℕ) (ds : List Char) :
    ds.length ≤ (Nat.toDigitsCore b f n ds).length := by
  induction f generalizing n ds with
  | zero => simp [Nat.toDigitsCore]
  | succ f ih =>
      rw [Nat.toDigitsCore]
      split
      · simp
      · exact le_trans (by simp) (ih (n / b) _)

theorem toDigits_ne_nil (b n : ℕ) : Nat.toDigits b n ≠ [] := by
  unfold Nat.toDigits
  rw [Nat.toDigitsCore]
  split
  · simp
  · intro h
    have := toDigitsCore_length b n (n / b) [Nat.digitChar (n % b)]
    rw [h] at this
    simp at this

/-- The decimal rendering of a row id is never the empty string. -/
theorem nat_repr_ne_empty (n : ℕ) : Nat.repr n ≠ "" := by
  unfold Nat.repr
  intro h
  exact toDigits_ne_nil 10 n (congrArg String.data h)

/-- The three possible effect shapes of a camera-handler call: nothing, a
failed persistence with no dispatch, or a persisted event whose id ends the
message handed to both channels. -/
theorem handle_camera_effects_cases (at2 : ℚ → ℚ → ℚ) (sq : ℚ → ℚ) (env : Env)
    (s : DPState) (pid : ℕ) (lm : List (List ℚ)) :
    (handle_camera_data at2 sq env s pid lm).2 = noEffects ∨
    ((handle_camera_data at2 sq env s pid lm).2.persisted = none ∧
     (handle_camera_data at2 sq env s pid lm).2.ami_call = none ∧
     (handle_camera_data at2 sq env s pid lm).2.telegram_call = none) ∨
    (∃ ev id pre,
      (handle_camera_data at2 sq env s pid lm).2.persisted = some (ev, id) ∧
      (handle_camera_data at2 sq env s pid lm).2.ami_call = some (pre ++ Nat.repr id) ∧
      (handle_camera_data at2 sq env s pid lm).2.telegram_call = some (pre ++ Nat.repr id)) := by
  simp only [handle_camera_data]
  split
  · split
    · split
      · right; left; exact ⟨rfl, rfl, rfl⟩
      · right; right; exact ⟨_, _, _, rfl, rfl, rfl⟩
    · left; rfl
  · left; rfl

/-- The three possible effect shapes of a remote-handler call. -/
theorem handle_mqtt_effects_cases (env : Env) (s : DPState) (msg : JValue) :
    (handle_mqtt_data env s msg).2 = noEffects ∨
    ((handle_mqtt_data env s msg).2.persisted = none ∧
     (handle_mqtt_data env s msg).2.ami_call = none ∧
     (handle_mqtt_data env s msg).2.telegram_call = none) ∨
    (∃ ev id pre,
      (handle_mqtt_data env s msg).2.persisted = some (ev, id) ∧
      (handle_mqtt_data env s msg).2.ami_call = some (pre ++ Nat.repr id) ∧
      (handle_mqtt_data env s msg).2.telegram_call = some (pre ++ Nat.repr id)) := by
  simp only [handle_mqtt_data, process_valid_report]
  split
  · split
    · left; rfl
    · split
      · left; rfl
      · split
        · left; rfl
        · split
          · left; rfl
          · split
            · left; rfl
            · split
              · split
                · split
                  · right; left; exact ⟨rfl, rfl, rfl⟩
                  · right; right; exact ⟨_, _, _, rfl, rfl, rfl⟩
                · left; rfl
              all_goals right; left; exact ⟨rfl, rfl, rfl⟩
  · left; rfl

/-! ## Claims -/

open FallDetector PersonTracker DPState

/-- C1, counterexample: the claim quantifies over every `FallDetector`, but
for a detector constructed with `fall_state_duration_threshold=1` a lying
observation confirms a fall and resets all state, and the immediately
following identical lying observation confirms AGAIN — the claim's final
clause ("an immediately following identical lying observation does not
return true again") fails. -/
theorem C1_counterexample :
    (detect_fall atan2degAxis sqrtAt0 detectorLying1 lyingObs).1 = true ∧
    (detect_fall atan2degAxis sqrtAt0 detectorLying1 lyingObs).2 =
      detectorLying1.reset ∧
    (detect_fall atan2degAxis sqrtAt0
      (detect_fall atan2degAxis sqrtAt0 detectorLying1 lyingObs).2 lyingObs).1 =
      true := by
  decide

/-- C1 (amended): for every fall detector whose thresholds are at least one
(the constructor's falsy-value fallback guarantees this), whose
lying-confirmation threshold is at least two, and whose velocity threshold
is non-negative, `detect_fall` on a valid observation returns true exactly
when the consecutive-falling counter reaches `FALL_DURATION_THRESHOLD` or
the consecutive-lying counter reaches `FALL_STATE_DURATION_THRESHOLD` on
that observation (the threshold-th consecutive qualifying frame, and not
earlier); on the confirming call both counters and the previous torso
center are reset; and an immediately following identical lying observation
does not return true again. -/
theorem C1_fall_confirmation (at2 : ℚ → ℚ → ℚ) (sq : ℚ → ℚ)
    (d : FallDetector) (lm : List (List ℚ)) (hlen : 33 ≤ lm.length)
    (hconf : d.lowConfidence lm = false)
    (hF : 1 ≤ d.FALL_DURATION_THRESHOLD)
    (hS : 2 ≤ d.FALL_STATE_DURATION_THRESHOLD)
    (hV : 0 ≤ d.VELOCITY_THRESHOLD) :
    ((detect_fall at2 sq d lm).1 = true ↔
      (step_falling at2 sq d lm = true ∧
        d.FALL_DURATION_THRESHOLD ≤ d.consecutive_frames_fallen + 1) ∨
      (step_falling at2 sq d lm = false ∧ step_lying at2 d lm = true ∧
        d.FALL_STATE_DURATION_THRESHOLD ≤ d.frames_in_fall_state + 1)) ∧
    ((detect_fall at2 sq d lm).1 = true →
      (detect_fall at2 sq d lm).2 = d.reset ∧
      (detect_fall at2 sq d lm).2.consecutive_frames_fallen = 0 ∧
      (detect_fall at2 sq d lm).2.frames_in_fall_state = 0 ∧
      (detect_fall at2 sq d lm).2.previous_torso_center = none) ∧
    ((detect_fall at2 sq d lm).1 = true →
      (detect_fall at2 sq (detect_fall at2 sq d lm).2 lm).1 = false) := by
  have hreset : (detect_fall at2 sq d.reset lm).1 = false :=
    detect_fall_after_reset_false at2 sq d.reset lm hlen rfl rfl hF hS hV hconf
  have h2 : (detect_fall at2 sq d lm).1 = true →
      (detect_fall at2 sq d lm).2 = d.reset ∧
      (detect_fall at2 sq d lm).2.consecutive_frames_fallen = 0 ∧
      (detect_fall at2 sq d lm).2.frames_in_fall_state = 0 ∧
      (detect_fall at2 sq d lm).2.previous_torso_center = none := by
    rw [detect_fall_valid at2 sq d lm hlen hconf]
    split_ifs with hfire
    · exact fun _ => ⟨rfl, rfl, rfl, rfl⟩
    · exact fun h => absurd h (by simp)
  refine ⟨?_, h2, fun hfir => ?_⟩
  · rw [detect_fall_valid at2 sq d lm hlen hconf]
    cases hf : step_falling at2 sq d lm <;> cases hl : step_lying at2 d lm <;>
      simp only [stepCCF, stepFIFS, hf, hl, if_true, if_false, ite_true,
        ite_false, Bool.false_eq_true, Bool.true_eq_false] <;>
      split_ifs with hfire <;>
      simp [hf, hl] <;>
      omega
  · rw [(h2 hfir).1]
    exact hreset

/-- C1 witness: a default-threshold detector four lying frames deep
confirms on the fifth lying observation and resets. -/
theorem C1_fall_confirmation_witness :
    (detect_fall atan2degAxis sqrtAt0 detectorLying4 lyingObs).1 = true ∧
    (detect_fall atan2degAxis sqrtAt0 detectorLying4 lyingObs).2 =
      detectorLying4.reset := by
  have h := C1_fall_confirmation atan2degAxis sqrtAt0 detectorLying4 lyingObs
    (by decide) (by decide) (by decide) (by decide) (by decide)
  have hfire : (detect_fall atan2degAxis sqrtAt0 detectorLying4 lyingObs).1 = true :=
    h.1.mpr (Or.inr ⟨by decide, by decide, by decide⟩)
  exact ⟨hfire, (h.2.1 hfire).1⟩

/-- C4: whenever the landmark list has fewer than 33 entries (in particular
when it is absent/empty) or one of the four torso landmarks carries a
confidence below `MIN_LANDMARK_CONFIDENCE`, `detect_fall` returns false and
resets both counters and the previous torso center, whatever state had
accumulated before the call. -/
theorem C4_invalid_landmarks_reset (at2 : ℚ → ℚ → ℚ) (sq : ℚ → ℚ)
    (d : FallDetector) (lm : List (List ℚ))
    (h : lm.length < 33 ∨
      ∃ i ∈ [LEFT_SHOULDER, RIGHT_SHOULDER, LEFT_HIP, RIGHT_HIP],
        (lm.getD i []).getD 2 0 < d.MIN_LANDMARK_CONFIDENCE) :
    detect_fall at2 sq d lm = (false, d.reset) ∧
    d.reset.consecutive_frames_fallen = 0 ∧
    d.reset.frames_in_fall_state = 0 ∧
    d.reset.previous_torso_center = none := by
  refine ⟨?_, rfl, rfl, rfl⟩
  rcases h with h | ⟨i, hi, hconf⟩
  · unfold detect_fall
    rw [if_pos (Or.inr h)]
  · have hlow : d.lowConfidence lm = true := by
      unfold lowConfidence
      rw [List.any_eq_true]
      exact ⟨i, hi, decide_eq_true (Or.inr hconf)⟩
    unfold detect_fall
    split_ifs
    all_goals rfl

/-- C4 witness: a detector with accumulated state receives an empty
landmark list and returns false with fully reset state. -/
theorem C4_invalid_landmarks_reset_witness :
    (([] : List (List ℚ)).length < 33 ∨
      ∃ i ∈ [LEFT_SHOULDER, RIGHT_SHOULDER, LEFT_HIP, RIGHT_HIP],
        (([] : List (List ℚ)).getD i []).getD 2 0 <
          detectorDirty.MIN_LANDMARK_CONFIDENCE) ∧
    detect_fall atan2degAxis sqrtAt0 detectorDirty [] =
      (false, detectorDirty.reset) :=
  ⟨Or.inl (by decide),
   (C4_invalid_landmarks_reset atan2degAxis sqrtAt0 detectorDirty []
      (Or.inl (by decide))).1⟩

/-- C7, counterexample: the claim requires an identity to persist whenever
its last box has IoU ≥ the threshold with an unmatched detection, but the
source matches only on IoU STRICTLY ABOVE the threshold
(`if iou > self.iou_threshold`): with IoU exactly `3/10` against the `3/10`
threshold, identity 0 is dropped and the detection is assigned the fresh
identity 1. -/
theorem C7_counterexample :
    calculate_iou (([0, 0, 10, 10] : List ℚ).take 4) (boxIoU03.take 4) ≥
      trackerOne.iou_threshold ∧
    ((0 : ℕ), ([0, 0, 10, 10] : List ℚ)) ∈ trackerOne.tracked_people ∧
    (trackerOne.update [boxIoU03]).2.1.map Prod.fst = [1] := by
  decide

/-- C7 (amended): for every tracker state and detection list, an existing
tracked identity whose last box has IoU STRICTLY ABOVE the configured
threshold with some detection still unmatched when that identity is
considered persists across the update call: it appears in the returned
list, paired with the first above-threshold detection of the remaining
pool in detection order (greedy first-match). -/
theorem C7_identity_persistence (t : PersonTracker) (boxes : List (List ℚ))
    (pre post : List (ℕ × List ℚ)) (pid : ℕ) (old_box : List ℚ)
    (hsplit : t.tracked_people = pre ++ (pid, old_box) :: post)
    (hmatch : ∃ b ∈ (matchLoop t.iou_threshold pre boxes).2,
        calculate_iou (old_box.take 4) (b.take 4) > t.iou_threshold) :
    ∃ m p q,
      (pid, m) ∈ (t.update boxes).2.1 ∧
      (matchLoop t.iou_threshold pre boxes).2 = p ++ m :: q ∧
      calculate_iou (old_box.take 4) (m.take 4) > t.iou_threshold ∧
      (∀ b ∈ p, ¬(calculate_iou (old_box.take 4) (b.take 4) > t.iou_threshold)) := by
  have hsome := matchFirst_isSome t.iou_threshold old_box _ hmatch
  rw [Option.isSome_iff_exists] at hsome
  obtain ⟨⟨m, rest⟩, hmf⟩ := hsome
  obtain ⟨p, q, hpool, hrest, hgt, hfirst⟩ := matchFirst_some _ _ _ _ _ hmf
  refine ⟨m, p, q, ?_, hpool, hgt, hfirst⟩
  unfold PersonTracker.update
  simp only [hsplit, matchLoop_append]
  rw [matchLoop, hmf]
  simp [List.mem_append]

/-- C7 witness: identity 0 tracked at `[0, 0, 10, 10]` persists against a
single detection of IoU `2/5 > 3/10`. -/
theorem C7_identity_persistence_witness :
    (∃ b ∈ (matchLoop trackerOne.iou_threshold [] [boxIoU04]).2,
        calculate_iou (([0, 0, 10, 10] : List ℚ).take 4) (b.take 4) >
          trackerOne.iou_threshold) ∧
    ∃ m p q,
      ((0 : ℕ), m) ∈ (trackerOne.update [boxIoU04]).2.1 ∧
      (matchLoop trackerOne.iou_threshold [] [boxIoU04]).2 = p ++ m :: q ∧
      calculate_iou (([0, 0, 10, 10] : List ℚ).take 4) (m.take 4) >
        trackerOne.iou_threshold ∧
      (∀ b ∈ p, ¬(calculate_iou (([0, 0, 10, 10] : List ℚ).take 4) (b.take 4) >
        trackerOne.iou_threshold)) :=
  ⟨⟨boxIoU04, by decide, by decide⟩,
   C7_identity_persistence trackerOne [boxIoU04] [] [] 0 [0, 0, 10, 10] rfl
     ⟨boxIoU04, by decide, by decide⟩⟩

/-- C8: under the reachable-state invariant (table identities pairwise
distinct and below `next_id`), an update call returns pairwise-distinct
identities; each returned identity is either a surviving old identity (the
matched ids form a sublist of the previous table's ids) or one of the
consecutive fresh identities `next_id, next_id + 1, ...` handed to the
unmatched detections; the invariant is preserved and `next_id` only grows,
so a dropped identity is never reused later in the tracker's lifetime. -/
theorem C8_identity_uniqueness (t : PersonTracker) (boxes : List (List ℚ))
    (h : t.Inv) :
    ((t.update boxes).2.1.map Prod.fst =
      ((matchLoop t.iou_threshold t.tracked_people boxes).1.map Prod.fst) ++
        List.range' t.next_id
          (matchLoop t.iou_threshold t.tracked_people boxes).2.length) ∧
    ((matchLoop t.iou_threshold t.tracked_people boxes).1.map Prod.fst).Sublist
      (t.tracked_people.map Prod.fst) ∧
    ((t.update boxes).2.1.map Prod.fst).Nodup ∧
    (t.update boxes).1.Inv ∧
    (t.update boxes).1.next_id =
      t.next_id + (matchLoop t.iou_threshold t.tracked_people boxes).2.length := by
  obtain ⟨hnodup, hlt⟩ := h
  have hids := matchLoop_ids_sublist t.iou_threshold t.tracked_people boxes
  have heq : (t.update boxes).2.1.map Prod.fst =
      ((matchLoop t.iou_threshold t.tracked_people boxes).1.map Prod.fst) ++
        List.range' t.next_id
          (matchLoop t.iou_threshold t.tracked_people boxes).2.length := by
    unfold PersonTracker.update
    simp [freshEntries_map_fst]
  have hmlt : ∀ i ∈ (matchLoop t.iou_threshold t.tracked_people boxes).1.map Prod.fst,
      i < t.next_id := fun i hi => hlt i (hids.subset hi)
  have hnd : ((t.update boxes).2.1.map Prod.fst).Nodup := by
    rw [heq]
    refine List.Nodup.append (hids.nodup hnodup)
      (List.nodup_range' _ _ _ Nat.one_pos) ?_
    intro i hi hir
    have h1 := hmlt i hi
    have h2 := (List.mem_range'_1.mp hir).1
    omega
  refine ⟨heq, hids, hnd, ⟨?_, ?_⟩, rfl⟩
  · exact hnd
  · intro i hi
    unfold PersonTracker.update at hi ⊢
    simp only [List.map_append, List.mem_append, freshEntries_map_fst] at hi
    simp only []
    rcases hi with hi | hi
    · have := hmlt i hi
      omega
    · have := List.mem_range'_1.mp hi
      omega

/-- C8 witness: a zero-overlap detection against a tracker holding identity
0 gets the fresh identity 1; ids stay distinct and the invariant holds. -/
theorem C8_identity_uniqueness_witness :
    trackerOne.Inv ∧
    ((trackerOne.update [boxIoU03]).2.1.map Prod.fst).Nodup ∧
    (trackerOne.update [boxIoU03]).1.Inv ∧
    (trackerOne.update [boxIoU03]).1.next_id = trackerOne.next_id + 1 :=
  ⟨by decide,
   (C8_identity_uniqueness trackerOne [boxIoU03] (by decide)).2.2.1,
   (C8_identity_uniqueness trackerOne [boxIoU03] (by decide)).2.2.2.1,
   (C8_identity_uniqueness trackerOne [boxIoU03] (by decide)).2.2.2.2⟩

/-- C10 (implicit): `update` pops every matched detection from the
caller-supplied list: the list the caller is left holding is a sublist of
its input, one detection shorter per matched identity, and consists exactly
of the detections that received brand-new identities (those returned with
an id at or above the old `next_id`). -/
theorem C10_update_mutates_input (t : PersonTracker) (boxes : List (List ℚ))
    (h : t.Inv) :
    (t.update boxes).2.2.Sublist boxes ∧
    boxes.length = (matchLoop t.iou_threshold t.tracked_people boxes).1.length +
      (t.update boxes).2.2.length ∧
    ((t.update boxes).2.1.filter fun e => t.next_id ≤ e.1).map Prod.snd =
      (t.update boxes).2.2 := by
  obtain ⟨hsub, hlen⟩ := matchLoop_rest_sublist t.iou_threshold t.tracked_people boxes
  refine ⟨hsub, hlen, ?_⟩
  have hmlt : ∀ e ∈ (matchLoop t.iou_threshold t.tracked_people boxes).1,
      e.1 < t.next_id := by
    intro e he
    exact h.2 e.1 ((matchLoop_ids_sublist t.iou_threshold t.tracked_people boxes).subset
      (List.mem_map_of_mem Prod.fst he))
  unfold PersonTracker.update
  simp only [List.filter_append]
  have hfm : ((matchLoop t.iou_threshold t.tracked_people boxes).1.filter
      fun e => t.next_id ≤ e.1) = [] := by
    rw [List.filter_eq_nil_iff]
    intro e he
    simp only [decide_eq_true_eq, not_le]
    exact hmlt e he
  have hff : ((freshEntries t.next_id
        (matchLoop t.iou_threshold t.tracked_people boxes).2).filter
      fun e => t.next_id ≤ e.1) =
      freshEntries t.next_id (matchLoop t.iou_threshold t.tracked_people boxes).2 := by
    rw [List.filter_eq_self]
    intro e he
    simp only [decide_eq_true_eq]
    exact freshEntries_mem_ge _ _ e he
  rw [hfm, hff]
  simp [freshEntries_map_snd]

/-- C10 witness: of two detections, the first (IoU `2/5`) continues identity
0 and is popped; the caller's list afterwards holds exactly the second
detection, which became the brand-new identity 1. -/
theorem C10_update_mutates_input_witness :
    trackerOne.Inv ∧
    (trackerOne.update [boxIoU04, boxIoU03]).2.2.Sublist [boxIoU04, boxIoU03] ∧
    ((trackerOne.update [boxIoU04, boxIoU03]).2.1.filter
        fun e => trackerOne.next_id ≤ e.1).map Prod.snd =
      (trackerOne.update [boxIoU04, boxIoU03]).2.2 ∧
    (trackerOne.update [boxIoU04, boxIoU03]).2.2 = [boxIoU03] :=
  ⟨by decide,
   (C10_update_mutates_input trackerOne [boxIoU04, boxIoU03] (by decide)).1,
   (C10_update_mutates_input trackerOne [boxIoU04, boxIoU03] (by decide)).2.2,
   by decide⟩

/-- C2: two remote reports with the same device id and an equal numeric
event timestamp, handled in a row, persist exactly one Fall Event and
dispatch at most one alert: the first report (fresh timestamp, expired
cooldown, successful insert) persists and dispatches, and records the
timestamp in the deduplication ledger; the second is dropped with no state
change and no effect, whatever the cooldown ledger then holds (the
deduplication check fires before the cooldown check); and the timestamp is
recorded inside the check itself, before persistence or dispatch, in every
environment — including ones whose insert fails. -/
theorem C2_mqtt_deduplication (env1 env2 : Env) (s0 : DPState) (dev : JAtom)
    (ts : ℚ) (id : ℕ) (hT : dev.truthy = true)
    (hFresh : dictGet s0.last_fall_timestamps dev ≠ some ts)
    (hCool : s0.is_cooldown_expired env1.now dev = true)
    (hIns : env1.insert 0 = .ok id) :
    ((handle_mqtt_data env1 s0 (dedupPayload dev ts)).2.persisted.isSome = true ∧
     (handle_mqtt_data env1 s0 (dedupPayload dev ts)).2.ami_call.isSome = true ∧
     (handle_mqtt_data env1 s0 (dedupPayload dev ts)).2.telegram_call.isSome = true) ∧
    dictGet (handle_mqtt_data env1 s0 (dedupPayload dev ts)).1.last_fall_timestamps
        dev = some ts ∧
    handle_mqtt_data env2 (handle_mqtt_data env1 s0 (dedupPayload dev ts)).1
        (dedupPayload dev ts) =
      ((handle_mqtt_data env1 s0 (dedupPayload dev ts)).1, noEffects) ∧
    (∀ (la : List (JAtom × ℚ)) (env' : Env),
      handle_mqtt_data env'
          { (handle_mqtt_data env1 s0 (dedupPayload dev ts)).1 with
              last_alert_timestamps := la } (dedupPayload dev ts) =
        ({ (handle_mqtt_data env1 s0 (dedupPayload dev ts)).1 with
            last_alert_timestamps := la }, noEffects)) ∧
    (∀ env' : Env,
      dictGet (handle_mqtt_data env' s0 (dedupPayload dev ts)).1.last_fall_timestamps
          dev = some ts) := by
  have h1 : handle_mqtt_data env1 s0 (dedupPayload dev ts) =
      (({ s0 with last_fall_timestamps :=
            dictSet s0.last_fall_timestamps dev ts } : DPState).update_last_alert
          env1.now dev,
       { persisted := some
            (create_fall_event env1.now_ts "esp32" dev none none false (some ts), id),
         insert_attempts := 1, backoff_sleeps := [],
         ami_call := some ("🚨 Fall detected by device " ++ dev.pyStr ++
           " at GPS: " ++ "Unknown" ++ ". Event ID: " ++ Nat.repr id),
         telegram_call := some ("🚨 Fall detected by device " ++ dev.pyStr ++
           " at GPS: " ++ "Unknown" ++ ". Event ID: " ++ Nat.repr id) }) := by
    rw [handle_mqtt_dedupPayload env1 s0 dev ts hT]
    unfold process_valid_report
    rw [can_alert_fresh s0 env1.now dev ts hFresh]
    simp only [is_cooldown_expired_set_fall, hCool,
      insert_retry_ok_first env1.insert id hIns, if_true]
  have hlf : dictGet (handle_mqtt_data env1 s0
      (dedupPayload dev ts)).1.last_fall_timestamps dev = some ts := by
    rw [h1]
    exact dictGet_dictSet _ _ _
  refine ⟨by rw [h1]; exact ⟨rfl, rfl, rfl⟩, hlf, ?_, ?_, ?_⟩
  · rw [handle_mqtt_dedupPayload env2 _ dev ts hT]
    unfold process_valid_report
    rw [can_alert_dup _ env2.now dev ts hlf]
    rfl
  · intro la env'
    rw [handle_mqtt_dedupPayload env' _ dev ts hT]
    unfold process_valid_report
    have hlf' : dictGet ({ (handle_mqtt_data env1 s0 (dedupPayload dev ts)).1 with
        last_alert_timestamps := la } : DPState).last_fall_timestamps dev = some ts := hlf
    rw [can_alert_dup _ env'.now dev ts hlf']
    rfl
  · intro env'
    rw [handle_mqtt_dedupPayload env' s0 dev ts hT]
    unfold process_valid_report
    rw [can_alert_fresh s0 env'.now dev ts hFresh]
    simp only [is_cooldown_expired_set_fall]
    split_ifs with hc
    · cases hii : (insert_fall_event_with_retry env'.insert).1 with
      | none => simp [hii]; exact dictGet_dictSet _ _ _
      | some i => simp [hii, DPState.update_last_alert]; exact dictGet_dictSet _ _ _
    · simp
      exact dictGet_dictSet _ _ _

/-- C2 witness: the spec's `dev1`/`1000` payload delivered twice to a fresh
processor persists once and the retransmission is a silent no-op. -/
theorem C2_mqtt_deduplication_witness :
    (handle_mqtt_data envOk DPState.init
      (dedupPayload (.str "dev1") 1000)).2.persisted.isSome = true ∧
    dictGet (handle_mqtt_data envOk DPState.init
        (dedupPayload (.str "dev1") 1000)).1.last_fall_timestamps
      (.str "dev1") = some 1000 ∧
    handle_mqtt_data envOk
        (handle_mqtt_data envOk DPState.init (dedupPayload (.str "dev1") 1000)).1
        (dedupPayload (.str "dev1") 1000) =
      ((handle_mqtt_data envOk DPState.init (dedupPayload (.str "dev1") 1000)).1,
       noEffects) :=
  ⟨(C2_mqtt_deduplication envOk envOk DPState.init (.str "dev1") 1000 1
      (by decide) (by decide) (by decide) (by decide)).1.1,
   (C2_mqtt_deduplication envOk envOk DPState.init (.str "dev1") 1000 1
      (by decide) (by decide) (by decide) (by decide)).2.1,
   (C2_mqtt_deduplication envOk envOk DPState.init (.str "dev1") 1000 1
      (by decide) (by decide) (by decide) (by decide)).2.2.1⟩

/-- C3, counterexample: the claim says the last-alert time is recorded once
the alert is authorized "even if the subsequent persistence write fails",
but in the source `_update_last_alert` runs only after a successful insert
and dispatch: with an authorized camera fall confirmation and a failing
insert, the cooldown ledger stays empty. -/
theorem C3_counterexample :
    (FallDetector.detect_fall atan2degAxis sqrtAt0
      (stateCam4.get_or_create_detector "camera_person_0").1 lyingObs).1 = true ∧
    (stateCam4.can_alert envDbError.now (.str "camera_person_0") none).1 = true ∧
    (handle_camera_data atan2degAxis sqrtAt0 envDbError stateCam4 0
      lyingObs).2.persisted = none ∧
    (handle_camera_data atan2degAxis sqrtAt0 envDbError stateCam4 0
      lyingObs).1.last_alert_timestamps = [] := by
  decide

/-- C3 (amended): an alert is authorized only if no alert for the key was
recorded within the cooldown window; once an authorized camera fall
confirmation is PERSISTED, the last-alert time is recorded (channel
delivery failures are swallowed by `_send_alerts` and cannot prevent the
recording or the hand-off to both channels); and a confirmation arriving
while the window is active produces no persistence and no dispatch.  A
persistence failure, however, aborts before the recording (see the
counterexample). -/
theorem C3_cooldown_policy (at2 : ℚ → ℚ → ℚ) (sq : ℚ → ℚ) (env : Env)
    (s : DPState) (pid : ℕ) (lm : List (List ℚ)) :
    (∀ (s' : DPState) (now : ℚ) (k : JAtom) (ts? : Option ℚ) (la : ℚ),
      (s'.can_alert now k ts?).1 = true →
      dictGet s'.last_alert_timestamps k = some la →
      now - la > s'.cooldown_minutes) ∧
    ((FallDetector.detect_fall at2 sq
        (s.get_or_create_detector ("camera_person_" ++ Nat.repr pid)).1 lm).1 = true →
     s.is_cooldown_expired env.now (.str ("camera_person_" ++ Nat.repr pid)) = true →
     ∀ id, env.insert 0 = .ok id →
      dictGet (handle_camera_data at2 sq env s pid lm).1.last_alert_timestamps
        (.str ("camera_person_" ++ Nat.repr pid)) = some env.now ∧
      (handle_camera_data at2 sq env s pid lm).2.persisted.isSome = true ∧
      (handle_camera_data at2 sq env s pid lm).2.ami_call.isSome = true ∧
      (handle_camera_data at2 sq env s pid lm).2.telegram_call.isSome = true) ∧
    (∀ t1, dictGet s.last_alert_timestamps
        (.str ("camera_person_" ++ Nat.repr pid)) = some t1 →
      ¬(env.now - t1 > s.cooldown_minutes) →
      (handle_camera_data at2 sq env s pid lm).2 = noEffects) := by
  refine ⟨fun s' now k ts? la hA hla => can_alert_true_cooldown s' now k ts? la hA hla,
    ?_, ?_⟩
  · intro hFall hCool id hIns
    simp only [handle_camera_data]
    rw [hFall]
    simp only [DPState.can_alert, if_true]
    have hc1 : (({ (s.get_or_create_detector ("camera_person_" ++ Nat.repr pid)).2 with
        fall_detectors := dictSet
          (s.get_or_create_detector ("camera_person_" ++ Nat.repr pid)).2.fall_detectors
          ("camera_person_" ++ Nat.repr pid)
          (FallDetector.detect_fall at2 sq
            (s.get_or_create_detector ("camera_person_" ++ Nat.repr pid)).1 lm).2 } :
        DPState).is_cooldown_expired env.now
        (.str ("camera_person_" ++ Nat.repr pid))) = true := by
      rw [show (({ (s.get_or_create_detector ("camera_person_" ++ Nat.repr pid)).2 with
        fall_detectors := dictSet
          (s.get_or_create_detector ("camera_person_" ++ Nat.repr pid)).2.fall_detectors
          ("camera_person_" ++ Nat.repr pid)
          (FallDetector.detect_fall at2 sq
            (s.get_or_create_detector ("camera_person_" ++ Nat.repr pid)).1 lm).2 } :
        DPState).is_cooldown_expired env.now
        (.str ("camera_person_" ++ Nat.repr pid)))
        = (s.get_or_create_detector
            ("camera_person_" ++ Nat.repr pid)).2.is_cooldown_expired
            env.now (.str ("camera_person_" ++ Nat.repr pid)) from rfl]
      rw [is_cooldown_expired_goc]
      exact hCool
    rw [hc1]
    simp only [if_true, insert_retry_ok_first env.insert id hIns]
    exact ⟨dictGet_dictSet _ _ _, rfl, rfl, rfl⟩
  · intro t1 hla hcool
    simp only [handle_camera_data]
    by_cases hFall : (FallDetector.detect_fall at2 sq
        (s.get_or_create_detector ("camera_person_" ++ Nat.repr pid)).1 lm).1 = true
    · rw [hFall]
      simp only [DPState.can_alert, if_true]
      have hc0 : (({ (s.get_or_create_detector ("camera_person_" ++ Nat.repr pid)).2 with
          fall_detectors := dictSet
            (s.get_or_create_detector ("camera_person_" ++ Nat.repr pid)).2.fall_detectors
            ("camera_person_" ++ Nat.repr pid)
            (FallDetector.detect_fall at2 sq
              (s.get_or_create_detector ("camera_person_" ++ Nat.repr pid)).1 lm).2 } :
          DPState).is_cooldown_expired env.now
          (.str ("camera_person_" ++ Nat.repr pid))) = false := by
        rw [show (({ (s.get_or_create_detector ("camera_person_" ++ Nat.repr pid)).2 with
          fall_detectors := dictSet
            (s.get_or_create_detector ("camera_person_" ++ Nat.repr pid)).2.fall_detectors
            ("camera_person_" ++ Nat.repr pid)
            (FallDetector.detect_fall at2 sq
              (s.get_or_create_detector ("camera_person_" ++ Nat.repr pid)).1 lm).2 } :
          DPState).is_cooldown_expired env.now
          (.str ("camera_person_" ++ Nat.repr pid)))
          = (s.get_or_create_detector
              ("camera_person_" ++ Nat.repr pid)).2.is_cooldown_expired
              env.now (.str ("camera_person_" ++ Nat.repr pid)) from rfl]
        rw [is_cooldown_expired_goc]
        exact is_cooldown_expired_false s env.now _ t1 hla hcool
      rw [hc0]
      simp
    · rw [Bool.not_eq_true] at hFall
      rw [hFall]
      simp

/-- C3 witness: a camera detector four lying frames deep confirms, the
alert is authorized, persisted with id 1, handed to both channels, and the
last-alert time is recorded. -/
theorem C3_cooldown_policy_witness :
    (FallDetector.detect_fall atan2degAxis sqrtAt0
      (stateCam4.get_or_create_detector ("camera_person_" ++ Nat.repr 0)).1
      lyingObs).1 = true ∧
    dictGet (handle_camera_data atan2degAxis sqrtAt0 envOk stateCam4 0
        lyingObs).1.last_alert_timestamps
      (.str ("camera_person_" ++ Nat.repr 0)) = some envOk.now ∧
    (handle_camera_data atan2degAxis sqrtAt0 envOk stateCam4 0
      lyingObs).2.ami_call.isSome = true :=
  ⟨by decide,
   ((C3_cooldown_policy atan2degAxis sqrtAt0 envOk stateCam4 0 lyingObs).2.1
      (by decide) (by decide) 1 (by decide)).1,
   ((C3_cooldown_policy atan2degAxis sqrtAt0 envOk stateCam4 0 lyingObs).2.1
      (by decide) (by decide) 1 (by decide)).2.2.1⟩

/-- C5: a fall event is dispatched only when its persistence succeeded — if
no storage identifier is obtained, neither channel receives anything — and
on success the alert text handed to both channels ends in the decimal
rendering of the storage identifier, which is never empty.  This holds for
the camera path and the remote path alike. -/
theorem C5_persistence_gates_dispatch (at2 : ℚ → ℚ → ℚ) (sq : ℚ → ℚ)
    (env : Env) (s : DPState) (pid : ℕ) (lm : List (List ℚ)) (msg : JValue) :
    ((handle_camera_data at2 sq env s pid lm).2.persisted = none →
      (handle_camera_data at2 sq env s pid lm).2.ami_call = none ∧
      (handle_camera_data at2 sq env s pid lm).2.telegram_call = none) ∧
    (∀ ev id, (handle_camera_data at2 sq env s pid lm).2.persisted = some (ev, id) →
      Nat.repr id ≠ "" ∧ ∃ pre,
        (handle_camera_data at2 sq env s pid lm).2.ami_call =
          some (pre ++ Nat.repr id) ∧
        (handle_camera_data at2 sq env s pid lm).2.telegram_call =
          some (pre ++ Nat.repr id)) ∧
    ((handle_mqtt_data env s msg).2.persisted = none →
      (handle_mqtt_data env s msg).2.ami_call = none ∧
      (handle_mqtt_data env s msg).2.telegram_call = none) ∧
    (∀ ev id, (handle_mqtt_data env s msg).2.persisted = some (ev, id) →
      Nat.repr id ≠ "" ∧ ∃ pre,
        (handle_mqtt_data env s msg).2.ami_call = some (pre ++ Nat.repr id) ∧
        (handle_mqtt_data env s msg).2.telegram_call = some (pre ++ Nat.repr id)) := by
  have hc := handle_camera_effects_cases at2 sq env s pid lm
  have hm := handle_mqtt_effects_cases env s msg
  refine ⟨?_, ?_, ?_, ?_⟩
  · intro h
    rcases hc with hc | ⟨h1, h2, h3⟩ | ⟨ev, id, pre, h1, h2, h3⟩
    · rw [hc]; exact ⟨rfl, rfl⟩
    · exact ⟨h2, h3⟩
    · rw [h] at h1; simp at h1
  · intro ev id h
    rcases hc with hc | ⟨h1, h2, h3⟩ | ⟨ev', id', pre, h1, h2, h3⟩
    · rw [hc] at h; simp [noEffects] at h
    · rw [h1] at h; simp at h
    · obtain ⟨rfl, rfl⟩ : ev' = ev ∧ id' = id := by simpa using h1.symm.trans h
      exact ⟨nat_repr_ne_empty _, pre, h2, h3⟩
  · intro h
    rcases hm with hm | ⟨h1, h2, h3⟩ | ⟨ev, id, pre, h1, h2, h3⟩
    · rw [hm]; exact ⟨rfl, rfl⟩
    · exact ⟨h2, h3⟩
    · rw [h] at h1; simp at h1
  · intro ev id h
    rcases hm with hm | ⟨h1, h2, h3⟩ | ⟨ev', id', pre, h1, h2, h3⟩
    · rw [hm] at h; simp [noEffects] at h
    · rw [h1] at h; simp at h
    · obtain ⟨rfl, rfl⟩ : ev' = ev ∧ id' = id := by simpa using h1.symm.trans h
      exact ⟨nat_repr_ne_empty _, pre, h2, h3⟩

/-- C5 witness: the remote payload persisted with row id 1 produces channel
messages ending in "1", while a failing insert on the camera path produces
no channel hand-off. -/
theorem C5_persistence_gates_dispatch_witness :
    (Nat.repr 1 ≠ "" ∧ ∃ pre,
      (handle_mqtt_data envOk DPState.init payloadDev1).2.ami_call =
        some (pre ++ Nat.repr 1) ∧
      (handle_mqtt_data envOk DPState.init payloadDev1).2.telegram_call =
        some (pre ++ Nat.repr 1)) ∧
    ((handle_camera_data atan2degAxis sqrtAt0 envDbError stateCam4 0
        lyingObs).2.ami_call = none ∧
     (handle_camera_data atan2degAxis sqrtAt0 envDbError stateCam4 0
        lyingObs).2.telegram_call = none) :=
  ⟨(C5_persistence_gates_dispatch atan2degAxis sqrtAt0 envOk DPState.init 0
      lyingObs payloadDev1).2.2.2
      (create_fall_event envOk.now_ts "esp32" (.str "dev1") none none false
        (some 1000)) 1 (by decide),
   (C5_persistence_gates_dispatch atan2degAxis sqrtAt0 envDbError stateCam4 0
      lyingObs payloadDev1).1 (by decide)⟩

/-- C6: how `_insert_fall_event_with_retry` actually behaves, evaluated on
the three failure modes of `insert_fall_event`.  A write that fails with a
swallowed sqlite error (the function returns `None`) is returned after a
SINGLE attempt with no backoff — only raised exceptions are retried, with
exponential backoff `1, 2, 4` — and the single `None` already aborts the
camera alert.  This contradicts the claim (and the wrapper's own docstring
and "attempt n" logging), which promise up to 3 attempts with exponential
backoff for every failing write. -/
theorem C6_retry_behavior :
    insert_fall_event_with_retry (fun _ => .dbError) = (none, 1, []) ∧
    insert_fall_event_with_retry (fun _ => .raised) = (none, 3, [1, 2, 4]) ∧
    insert_fall_event_with_retry (fun i => if i < 2 then .raised else .ok 7) =
      (some 7, 3, [1, 2]) ∧
    (handle_camera_data atan2degAxis sqrtAt0 envDbError stateCam4 0 lyingObs).2 =
      { persisted := none, insert_attempts := 1, backoff_sleeps := [],
        ami_call := none, telegram_call := none } := by
  decide

/-- C9, counterexample, refuting the claim twice over.  First, a payload
that passes every rejection the claim lists (an object, truthy device id,
fall flag exactly `true`, no GPS fields) but carries no timestamp is
dropped before the deduplication/cooldown decision with no state change
and no effect — while the same payload with a numeric timestamp proceeds
and alerts — so the code rejects more than the claim's "exactly" list: it
also requires a numeric `timestamp` field.  Second, the claim says no
remote payload ever causes an exception to propagate to the caller, but a
payload valid in every listed respect whose device id is a non-empty JSON
object is unhashable, and the deduplication lookup on it raises a
`TypeError` out of the handler. -/
theorem C9_counterexample :
    handle_mqtt_data envOk DPState.init payloadNoTs = (DPState.init, noEffects) ∧
    (handle_mqtt_data envOk DPState.init payloadDev1).2.persisted.isSome = true ∧
    (handle_mqtt_data envOk DPState.init payloadDev1).2.ami_call.isSome = true ∧
    (handle_mqtt_data envOk DPState.init payloadDevObj).2.raised =
      some PyExn.typeError ∧
    (handle_mqtt_data envOk DPState.init payloadDevObj).1 = DPState.init := by
  decide

/-- C9 (amended): the remote handler drops, with no state change and no
effect, exactly the malformed payloads: non-object payloads (scalars and
arrays), a missing, `null` or falsy device id, a fall flag that is not
exactly `true`, a missing or non-numeric event timestamp (booleans count
as numeric, since `bool` subclasses `int`), and — when both latitude and
longitude are present and non-`null` — non-numeric or out-of-range GPS
coordinates.  A payload passing every check whose device id is an
unhashable container (a non-empty JSON array or object) raises `TypeError`
out of the handler from the deduplication lookup, mutating no state and
dispatching nothing; every other passing payload proceeds to the
deduplication/cooldown decision (`process_valid_report`, which starts with
`_can_alert`). -/
theorem C9_remote_validation (env : Env) (s : DPState) :
    (∀ a : JAtom, handle_mqtt_data env s (.atom a) = (s, noEffects)) ∧
    (∀ l, handle_mqtt_data env s (.arr l) = (s, noEffects)) ∧
    (∀ fields, jget fields "device_id" = none →
      handle_mqtt_data env s (.obj fields) = (s, noEffects)) ∧
    (∀ fields dev, jget fields "device_id" = some dev → dev.truthy = false →
      handle_mqtt_data env s (.obj fields) = (s, noEffects)) ∧
    (∀ fields, jget fields "fall_detected" ≠ some (JField.atom (.bool true)) →
      handle_mqtt_data env s (.obj fields) = (s, noEffects)) ∧
    (∀ fields, jnum (jget fields "timestamp") = none →
      handle_mqtt_data env s (.obj fields) = (s, noEffects)) ∧
    (∀ fields, gpsValid (jget fields "latitude") (jget fields "longitude") = false →
      handle_mqtt_data env s (.obj fields) = (s, noEffects)) ∧
    (∀ fields dev ts, jget fields "device_id" = some dev → dev.truthy = true →
      (∀ a : JAtom, dev ≠ .atom a) →
      jget fields "fall_detected" = some (JField.atom (.bool true)) →
      jnum (jget fields "timestamp") = some ts →
      gpsValid (jget fields "latitude") (jget fields "longitude") = true →
      handle_mqtt_data env s (.obj fields) =
        (s, { noEffects with raised := some PyExn.typeError })) ∧
    (∀ fields a ts, jget fields "device_id" = some (JField.atom a) →
      a.truthy = true →
      jget fields "fall_detected" = some (JField.atom (.bool true)) →
      jnum (jget fields "timestamp") = some ts →
      gpsValid (jget fields "latitude") (jget fields "longitude") = true →
      handle_mqtt_data env s (.obj fields) =
        process_valid_report env s a ts (jnum (jget fields "latitude"))
          (jnum (jget fields "longitude"))
          (match jget fields "has_gps_fix" with
           | some (.atom (.bool b)) => b
           | _ => false)) := by
  refine ⟨fun a => rfl, fun l => rfl, ?_, ?_, ?_, ?_, ?_, ?_, ?_⟩
  · intro fields hdev
    simp only [handle_mqtt_data, hdev]
  · intro fields dev hdev hfalsy
    simp only [handle_mqtt_data, hdev, hfalsy, if_true]
  · intro fields hff
    cases hdev : jget fields "device_id" with
    | none => simp only [handle_mqtt_data, hdev]
    | some dev =>
        simp only [handle_mqtt_data, hdev]
        split_ifs <;> rfl
  · intro fields hts
    cases hdev : jget fields "device_id" with
    | none => simp only [handle_mqtt_data, hdev]
    | some dev =>
        simp only [handle_mqtt_data, hdev]
        split_ifs <;> first | rfl | simp only [hts]
  · intro fields hgps
    cases hdev : jget fields "device_id" with
    | none => simp only [handle_mqtt_data, hdev]
    | some dev =>
        simp only [handle_mqtt_data, hdev]
        split_ifs <;>
          first
            | rfl
            | (cases hts : jnum (jget fields "timestamp") with
                | none => simp only [hts]
                | some ts => simp only [hts, hgps, if_true])
  · intro fields dev ts hdev htruthy hna hff hts hgps
    simp only [handle_mqtt_data, hdev, htruthy, hff, hts, hgps]
    cases dev with
    | atom a => exact absurd rfl (hna a)
    | arr l => rfl
    | obj f => rfl
  · intro fields a ts hdev htruthy hff hts hgps
    have htr : (JField.atom a).truthy = true := htruthy
    simp only [handle_mqtt_data, hdev, htr, hff, hts, hgps]
    rfl

/-- C9 witness: a payload with a boolean event timestamp (numeric to
`isinstance`, value 1) and both GPS coordinates present but `null` (read
as absent) passes validation and reaches the deduplication/cooldown
pipeline. -/
theorem C9_remote_validation_witness :
    handle_mqtt_data envOk DPState.init payloadBoolTs =
      process_valid_report envOk DPState.init (.str "dev1") 1 none none false :=
  (C9_remote_validation envOk DPState.init).2.2.2.2.2.2.2.2
    [("device_id", .atom (.str "dev1")), ("fall_detected", .atom (.bool true)),
     ("timestamp", .atom (.bool true)), ("latitude", .atom .null),
     ("longitude", .atom .null)] (.str "dev1") 1
    (by decide) (by decide) (by decide) (by decide) (by decide)

end IntergrateFall
